import Mathlib

/-!
Verification of the tool-dispatch and session-context substrate of the
ResumeOptimizationAgent repository, as a shallow embedding in Lean 4.

Sources embedded (translated from the Python source):
  * `src/utils/session_state.py` — `SessionState` and its mutators.
  * `src/tools/resume_parser.py` — `parse_resume` caching/dispatch logic
    (the file-I/O extraction layer is abstracted as a parameter).
  * `src/services/job_search_service.py` — `search_jobs` (HTTP call
    abstracted as its outcome), `rank_jobs`, `get_job_by_id`.
  * `src/tools/job_search_tools.py` — `search_jobs_by_criteria`,
    `get_job_details`, `filter_jobs_by_requirements`,
    `save_manual_job_description`, `list_available_jobs`.
  * `src/tools/document_generation_tools.py` — `generate_optimized_resume`,
    `generate_cover_letter`, `list_generated_documents` (document rendering
    and the LLM call abstracted as parameters; filesystem writes are made
    explicit as an output list of written paths).
  * `src/tools/resume_comparator.py` — `calculate_skill_match`.
  * `src/agent/orchestrator.py` — `_parse_claude_output`.

Modelling conventions:
  * Python strings are Lean `String`; `str.lower`, `str.strip`, slicing and
    the `in` substring test are translated directly over the character
    lists (`pyLower`, `pyStrip`, `pyTake`, `pyInStr`), because Python's
    `lower`/`strip` operate per character.
  * Python `None`/attribute-missing is `Option.none`.  The three
    attributes `current_job_search_results`, `selected_job_id` and
    `generated_documents` are not declared fields of the `SessionState`
    dataclass; they are created dynamically by tools.  They are modelled
    as `Option` fields that are `none` exactly when the Python attribute
    does not exist; reading them through `none` corresponds to the
    `AttributeError` that the tools catch and convert to a
    `status = "error"` result.
  * Python dicts are association lists; dict truthiness is non-emptiness.
  * `datetime.now()` is an abstract tick passed in as a `Nat` argument.
  * Floating-point percentages are modelled in exact arithmetic
    (`ℚ`, or `Nat` floor division for `int((m/t)*100)`); Python's
    `round(x, 2)` (round-half-to-even) is `round2`.
-/

/-! ### Python string primitives -/

/-- Python `str.lower()` (per-character lowering). -/
def pyLower (s : String) : String := ⟨s.data.map Char.toLower⟩

/-- Python `str.strip()`: drop whitespace from both ends. -/
def pyStrip (s : String) : String :=
  ⟨((s.data.dropWhile Char.isWhitespace).reverse.dropWhile Char.isWhitespace).reverse⟩

/-- Python slicing `s[:n]`. -/
def pyTake (n : Nat) (s : String) : String := ⟨s.data.take n⟩

/-- Does `n` start the list `h`?  (Helper for the Python substring test.) -/
def charsLeads : List Char → List Char → Bool
  | [], _ => true
  | _ :: _, [] => false
  | a :: as, b :: bs => a == b && charsLeads as bs

/-- Is `n` a contiguous subsequence of `h`?  (Helper for `pyInStr`.) -/
def charsContains (n : List Char) : List Char → Bool
  | [] => n.isEmpty
  | b :: bs => charsLeads n (b :: bs) || charsContains n bs

/-- Python `needle in hay` for strings (substring containment). -/
def pyInStr (needle hay : String) : Bool := charsContains needle.data hay.data

/-- Python `job_description.split('\n')[0]`: the text before the first newline. -/
def firstLineOf (s : String) : String := ⟨s.data.takeWhile (fun c => c ≠ '\n')⟩

/-- Python `round(q, 2)`: round to two decimal places, ties to even. -/
def round2 (q : ℚ) : ℚ :=
  let f : ℤ := ⌊q * 100⌋
  let r : ℚ := q * 100 - f
  let n : ℤ := if r < 1/2 then f else if 1/2 < r then f + 1 else if f % 2 = 0 then f else f + 1
  (n : ℚ) / 100

/-! ### Data model (`src/models/schemas.py`) -/

/-- `RemoteType` enum. -/
inductive RemoteType where
  | remote
  | hybrid
  | onsite
deriving DecidableEq, Repr

/-- `ContactInfo` (pydantic model). -/
structure ContactInfo where
  name : String
  email : Option String := none
  phone : Option String := none
  location : Option String := none
  linkedin : Option String := none
  github : Option String := none
deriving DecidableEq, Repr

/-- A Python value stored in a parsed-resume dict (`model_dump` output). -/
inductive PyVal where
  | str (s : String)
  | strList (l : List String)
  | contactVal (c : ContactInfo)
  | noneVal
deriving DecidableEq, Repr

/-- A Python dict, modelled as an association list. -/
abbrev PyDict := List (String × PyVal)

/-- `ResumeData` (the fields `parse_resume` actually populates;
`experience`/`education`/`certifications` are always `[]` there). -/
structure ResumeData where
  contact : ContactInfo
  summary : String
  skills : List String
  raw_text : String
  file_path : String
deriving DecidableEq, Repr

/-- `ResumeData.model_dump()`: the cached dict.  Always non-empty (truthy). -/
def ResumeData.model_dump (rd : ResumeData) : PyDict :=
  [("contact", PyVal.contactVal rd.contact),
   ("summary", PyVal.str rd.summary),
   ("skills", PyVal.strList rd.skills),
   ("experience", PyVal.strList []),
   ("education", PyVal.strList []),
   ("certifications", PyVal.strList []),
   ("raw_text", PyVal.str rd.raw_text),
   ("file_path", PyVal.str rd.file_path)]

/-- Python `resume_data.get("skills", [])` on a cached parse dict. -/
def PyDict.getSkills (d : PyDict) : List String :=
  match d.lookup "skills" with
  | some (PyVal.strList l) => l
  | _ => []

/-- `JobPosting` (pydantic model; `posted_date`/`created_at` timestamps are
abstract `Nat` ticks, `match_score` is the integer score `rank_jobs` assigns). -/
structure JobPosting where
  id : Option String := none
  title : String
  company : String
  location : String
  salary_range : Option String := none
  remote_type : RemoteType := RemoteType.onsite
  url : Option String := none
  posted_date : Option Nat := none
  description : String
  requirements : List String := []
  nice_to_have : List String := []
  extracted_keywords : List String := []
  match_score : Option Nat := none
deriving DecidableEq, Repr

/-! ### Session store (`src/utils/session_state.py`) -/

/-- `SessionState` dataclass.  The last three fields model the dynamically
created attributes (`none` = the Python attribute does not exist; the
dataclass declares none of them, so they are `none` on a fresh instance). -/
structure SessionState where
  uploaded_resume_path : Option String := none
  resume_parsed_data : Option PyDict := none
  resume_upload_time : Option Nat := none
  user_profile : PyDict := []
  current_job_description : Option String := none
  current_job_analysis : Option PyDict := none
  job_match_result : Option PyDict := none
  conversation_summary : List String := []
  current_job_search_results : Option (List JobPosting) := none
  selected_job_id : Option String := none
  generated_documents : Option (List (String × String)) := none
deriving DecidableEq, Repr

/-- A freshly constructed `SessionState()`. -/
def freshSession : SessionState := {}

/-- `SessionState.has_resume`. -/
def SessionState.has_resume (s : SessionState) : Bool :=
  s.uploaded_resume_path.isSome

/-- `SessionState.is_resume_parsed`. -/
def SessionState.is_resume_parsed (s : SessionState) : Bool :=
  s.resume_parsed_data.isSome

/-- `SessionState.add_to_summary`: append a timestamped fact and keep only
the last 20 entries (`self.conversation_summary[-20:]`). -/
def SessionState.add_to_summary (s : SessionState) (now : Nat) (fact : String) : SessionState :=
  { s with conversation_summary :=
      let l := s.conversation_summary ++ ["[" ++ toString now ++ "] " ++ fact]
      if 20 < l.length then l.drop (l.length - 20) else l }

/-- `SessionState.set_resume(file_path, parsed_data)`: overwrite path and
upload time; store parsed data only when it is truthy (a non-empty dict);
append an event. -/
def SessionState.set_resume (s : SessionState) (now : Nat) (file_path : String)
    (parsed_data : Option PyDict) : SessionState :=
  let s := { s with uploaded_resume_path := some file_path, resume_upload_time := some now }
  let s :=
    match parsed_data with
    | some d => if d ≠ [] then { s with resume_parsed_data := some d } else s
    | none => s
  s.add_to_summary now ("Resume uploaded: " ++ file_path)

/-- `SessionState.set_parsed_data`. -/
def SessionState.set_parsed_data (s : SessionState) (now : Nat) (parsed_data : PyDict) :
    SessionState :=
  ({ s with resume_parsed_data := some parsed_data }).add_to_summary now
    "Resume parsed successfully"

/-- `SessionState.clear()`: reset every *declared* field to its default.
The dynamically created attributes are not fields of the dataclass, so the
method body does not (and cannot, by name) touch them. -/
def SessionState.clear (s : SessionState) : SessionState :=
  { s with
    uploaded_resume_path := none
    resume_parsed_data := none
    resume_upload_time := none
    user_profile := []
    current_job_description := none
    current_job_analysis := none
    job_match_result := none
    conversation_summary := [] }

/-! ### Job search service (`src/services/job_search_service.py`) -/

/-- Truthiness of an optional string argument (`not file_path`). -/
def optFalsy : Option String → Bool
  | none => true
  | some s => s == ""

/-- Python truthiness of an optional dict (`if session.resume_parsed_data:`). -/
def optTruthy : Option PyDict → Bool
  | none => false
  | some d => ! d.isEmpty

/-- Python `j.match_score or 0`, the sort key of `rank_jobs`. -/
def scoreKey (j : JobPosting) : Nat := j.match_score.getD 0

/-- Insert into a descending-sorted list, keeping earlier elements first on
ties (stability, as Python's `list.sort` guarantees). -/
def insertByDesc {α : Type} (key : α → Nat) (a : α) : List α → List α
  | [] => [a]
  | b :: t => if key b ≤ key a then a :: b :: t else b :: insertByDesc key a t

/-- Stable sort, descending by `key`: the embedding of
`jobs.sort(key=..., reverse=True)`. -/
def sortByDesc {α : Type} (key : α → Nat) : List α → List α
  | [] => []
  | h :: t => insertByDesc key h (sortByDesc key t)

/-- `JobSearchService.search_jobs`: the HTTP request, JSON decoding and
per-result parsing are abstracted as the outcome `provider`; any exception
in that block is caught and an empty list returned (the error is only
logged). -/
def JobSearchService.search_jobs (provider : Except String (List JobPosting)) :
    List JobPosting :=
  match provider with
  | Except.ok jobs => jobs
  | Except.error _ => []

/-- `JobSearchService.rank_jobs`: score every job by resume-skill keyword
overlap (`int((matching/total)*100)` modelled as exact floor division),
add a +5 bonus capped at 100 for remote jobs, and sort descending. -/
def JobSearchService.rank_jobs (jobs : List JobPosting) (resume_data : PyDict) :
    List JobPosting :=
  let resume_skills : List String := (resume_data.getSkills.map pyLower).dedup
  let scored := jobs.map (fun job =>
    let job_text := pyLower (job.title ++ " " ++ job.description)
    let matching_skills := (resume_skills.filter (fun sk => pyInStr sk job_text)).length
    let total_skills := resume_skills.length
    let match_score := if 0 < total_skills then min 100 (matching_skills * 100 / total_skills) else 50
    let match_score :=
      if job.remote_type = RemoteType.remote then min 100 (match_score + 5) else match_score
    { job with match_score := some match_score })
  sortByDesc scoreKey scored

/-- `JobSearchService.get_job_by_id`: first cached job whose id equals
`job_id` (`None` ids never match a string). -/
def JobSearchService.get_job_by_id (job_id : String) (cached_jobs : List JobPosting) :
    Option JobPosting :=
  cached_jobs.find? (fun j => j.id == some job_id)

/-! ### Job search tools (`src/tools/job_search_tools.py`) -/

/-- Result record of `search_jobs_by_criteria` (its JSON projection keeps
`status`, `count` and per-job fields; `jobs` holds the projected postings). -/
structure SearchToolResult where
  status : String
  message : String := ""
  count : Nat := 0
  jobs : List JobPosting := []
deriving DecidableEq, Repr

/-- `search_jobs_by_criteria`: search (provider outcome abstracted), rank
when a truthy parsed resume is cached, store the list wholesale in the
session, and append a summary line *directly* (not via `add_to_summary`). -/
def search_jobs_by_criteria (provider : Except String (List JobPosting))
    (query location : String) (s : SessionState) : SearchToolResult × SessionState :=
  let resume_data := s.resume_parsed_data.getD []
  let jobs := JobSearchService.search_jobs provider
  let jobs :=
    if resume_data ≠ [] ∧ jobs ≠ [] then JobSearchService.rank_jobs jobs resume_data else jobs
  let s := { s with
    current_job_search_results := some jobs
    conversation_summary := s.conversation_summary ++
      ["Searched for: " ++ query ++ " in " ++ (if location = "" then "any location" else location)] }
  if jobs = [] then
    ({ status := "no_results",
       message := "No jobs found for " ++ query ++ " in " ++
         (if location = "" then "any location" else location), count := 0 }, s)
  else
    ({ status := "success", count := jobs.length, jobs := jobs }, s)

/-- Result record of `get_job_details`. -/
structure JobDetailsResult where
  status : String
  message : String := ""
  job : Option JobPosting := none
deriving DecidableEq, Repr

/-- `get_job_details`: look a job up in the cached results; reading the
dynamically created attribute through `none` is the caught
`AttributeError`. -/
def get_job_details (job_id : String) (s : SessionState) : JobDetailsResult × SessionState :=
  match s.current_job_search_results with
  | none =>
    ({ status := "error",
       message := "Error retrieving job details: SessionState object has no attribute current_job_search_results" }, s)
  | some cached_jobs =>
    match JobSearchService.get_job_by_id job_id cached_jobs with
    | none =>
      ({ status := "not_found",
         message := "Job ID " ++ job_id ++ " not found in current search results" }, s)
    | some job =>
      ({ status := "success", job := some job }, { s with selected_job_id := some job_id })

/-- Result record of `filter_jobs_by_requirements`. -/
structure FilterResult where
  status : String
  message : String := ""
  count : Nat := 0
  filtered_from : Nat := 0
  jobs : List JobPosting := []
deriving DecidableEq, Repr

/-- `filter_jobs_by_requirements`: destructive narrowing of the session's
current job list. -/
def filter_jobs_by_requirements (min_match_score : Nat) (remote_only has_salary : Bool)
    (s : SessionState) : FilterResult × SessionState :=
  match s.current_job_search_results with
  | none =>
    ({ status := "error",
       message := "Error filtering jobs: SessionState object has no attribute current_job_search_results" }, s)
  | some jobs =>
    if jobs = [] then
      ({ status := "no_results", message := "No jobs to filter. Please search for jobs first." }, s)
    else
      let filtered := jobs
      let filtered :=
        if 0 < min_match_score then
          filtered.filter (fun j => min_match_score ≤ j.match_score.getD 0) else filtered
      let filtered :=
        if remote_only then
          filtered.filter (fun j => j.remote_type == RemoteType.remote) else filtered
      let filtered :=
        if has_salary then filtered.filter (fun j => j.salary_range.isSome) else filtered
      ({ status := "success", count := filtered.length, filtered_from := jobs.length,
         jobs := filtered },
       { s with current_job_search_results := some filtered })

/-- Result record of `save_manual_job_description`. -/
structure SaveJobResult where
  status : String
  message : String := ""
  job : Option JobPosting := none
deriving DecidableEq, Repr

/-- `hashlib.md5(description).hexdigest()[:12]`: the md5 library call is
abstracted as the function `md5hex`; the id is its first 12 characters, a
function of the description text alone. -/
def deriveJobId (md5hex : String → String) (job_description : String) : String :=
  pyTake 12 (md5hex job_description)

/-- `save_manual_job_description`: build a posting with a content-hash id,
rank it against a truthy cached resume, then de-duplicate by id and insert
at the front of the session list.  Reading the missing results attribute
(`if not session.current_job_search_results`) through `none` is the caught
`AttributeError`. -/
def save_manual_job_description (md5hex : String → String) (now : Nat)
    (job_description job_title company_name : String) (s : SessionState) :
    SaveJobResult × SessionState :=
  let job_id := deriveJobId md5hex job_description
  let job_title :=
    if job_title == "" then
      let first_line := pyStrip (firstLineOf job_description)
      if first_line ≠ "" then pyTake 100 first_line else "Manual Job Entry"
    else job_title
  let company_name := if company_name == "" then "User Provided Company" else company_name
  let dl := pyLower job_description
  let remote_type :=
    if pyInStr "remote" dl && ! pyInStr "hybrid" dl then RemoteType.remote
    else if pyInStr "hybrid" dl then RemoteType.hybrid
    else RemoteType.onsite
  let job : JobPosting :=
    { id := some job_id, title := job_title, company := company_name,
      location := "Location Not Specified", description := job_description,
      remote_type := remote_type, url := some "", salary_range := none,
      posted_date := some now }
  let job :=
    if optTruthy s.resume_parsed_data then
      (JobSearchService.rank_jobs [job] (s.resume_parsed_data.getD [])).headD job
    else job
  match s.current_job_search_results with
  | none =>
    ({ status := "error",
       message := "Error saving job description: SessionState object has no attribute current_job_search_results" }, s)
  | some results =>
    let results := results.filter (fun j => ! (j.id == some job_id))
    let results := job :: results
    let s := { s with current_job_search_results := some results, selected_job_id := some job_id }
    let s := s.add_to_summary now ("Saved manual job: " ++ job_title ++ " at " ++ company_name)
    ({ status := "success",
       message := "Job description saved successfully for " ++ job_title ++ " at " ++ company_name,
       job := some job }, s)

/-- Result record of `list_available_jobs`. -/
structure ListJobsResult where
  status : String
  message : String := ""
  count : Nat := 0
  jobs : List JobPosting := []
deriving DecidableEq, Repr

/-- `list_available_jobs`. -/
def list_available_jobs (s : SessionState) : ListJobsResult × SessionState :=
  match s.current_job_search_results with
  | none =>
    ({ status := "error",
       message := "Error listing available jobs: SessionState object has no attribute current_job_search_results" }, s)
  | some jobs =>
    if jobs = [] then
      ({ status := "no_jobs",
         message := "No jobs in current session. User needs to search for jobs first.",
         count := 0 }, s)
    else
      ({ status := "success", count := jobs.length,
         message := "Found jobs in current session", jobs := jobs }, s)

/-! ### Document generation tools (`src/tools/document_generation_tools.py`) -/

/-- Result record of the two document generators. -/
structure DocGenResult where
  status : String
  message : String := ""
  document_type : String := ""
  file_format : String := ""
  file_path : Option String := none
deriving DecidableEq, Repr

/-- Python dict assignment `d[k] = v` on the generated-documents registry:
replace the value under an existing key, else append the new pair. -/
def dictSet (d : List (String × String)) (k v : String) : List (String × String) :=
  if d.any (fun p => p.1 == k) then d.map (fun p => if p.1 == k then (k, v) else p)
  else d ++ [(k, v)]

/-- `generate_optimized_resume`: the LLM summary rewrite is abstracted as
`llm` (its failure only logs a warning), document rendering and
`save_document` are abstracted with the resulting path `saved_path`; the
third component of the result lists the filesystem paths written. -/
def generate_optimized_resume (llm : Except String String) (saved_path : String) (now : Nat)
    (job_id file_format : String) (s : SessionState) :
    DocGenResult × SessionState × List String :=
  if ¬ s.is_resume_parsed then
    ({ status := "error", message := "No resume found. Please upload and parse a resume first." },
     s, [])
  else
    match s.current_job_search_results with
    | none =>
      ({ status := "error",
         message := "Error generating resume: SessionState object has no attribute current_job_search_results" },
       s, [])
    | some cached_jobs =>
      match JobSearchService.get_job_by_id job_id cached_jobs with
      | none =>
        ({ status := "error",
           message := "Job ID " ++ job_id ++ " not found in current search results" }, s, [])
      | some job =>
        let optimizations : List (String × String) :=
          match llm with
          | Except.ok content => [("summary", content)]
          | Except.error _ => []
        match s.generated_documents with
        | none =>
          ({ status := "error",
             message := "Error generating resume: SessionState object has no attribute generated_documents" },
           s, [saved_path])
        | some docs =>
          let _ := optimizations
          let s := { s with
            generated_documents := some (dictSet docs ("resume_" ++ job_id) saved_path) }
          let s := s.add_to_summary now
            ("Generated resume for " ++ job.title ++ " at " ++ job.company)
          ({ status := "success", document_type := "resume", file_format := file_format,
             file_path := some saved_path,
             message := "Resume generated successfully for " ++ job.title ++ " at " ++ job.company },
           s, [saved_path])

/-- `generate_cover_letter`: like the resume generator, but a failing LLM
call for the letter body returns an error before any file is written. -/
def generate_cover_letter (llm : Except String String) (saved_path : String) (now : Nat)
    (job_id _tone : String) (s : SessionState) :
    DocGenResult × SessionState × List String :=
  if ¬ s.is_resume_parsed then
    ({ status := "error", message := "No resume found. Please upload and parse a resume first." },
     s, [])
  else
    match s.current_job_search_results with
    | none =>
      ({ status := "error",
         message := "Error generating cover letter: SessionState object has no attribute current_job_search_results" },
       s, [])
    | some cached_jobs =>
      match JobSearchService.get_job_by_id job_id cached_jobs with
      | none =>
        ({ status := "error",
           message := "Job ID " ++ job_id ++ " not found in current search results" }, s, [])
      | some job =>
        match llm with
        | Except.error e =>
          ({ status := "error", message := "Error generating cover letter content: " ++ e }, s, [])
        | Except.ok _content =>
          match s.generated_documents with
          | none =>
            ({ status := "error",
               message := "Error generating cover letter: SessionState object has no attribute generated_documents" },
             s, [saved_path])
          | some docs =>
            let s := { s with
              generated_documents := some (dictSet docs ("cover_letter_" ++ job_id) saved_path) }
            let s := s.add_to_summary now
              ("Generated cover letter for " ++ job.title ++ " at " ++ job.company)
            ({ status := "success", document_type := "cover_letter",
               file_path := some saved_path,
               message := "Cover letter generated successfully for " ++ job.title ++ " at " ++ job.company },
             s, [saved_path])

/-- Result record of `list_generated_documents`. -/
structure ListDocsResult where
  status : String
  message : String := ""
  count : Nat := 0
  documents : List (String × String) := []
deriving DecidableEq, Repr

/-- `list_generated_documents`. -/
def list_generated_documents (s : SessionState) : ListDocsResult × SessionState :=
  match s.generated_documents with
  | none =>
    ({ status := "error",
       message := "Error listing documents: SessionState object has no attribute generated_documents" }, s)
  | some documents =>
    if documents = [] then
      ({ status := "no_documents",
         message := "No documents have been generated in this session.", count := 0 }, s)
    else
      ({ status := "success", count := documents.length, documents := documents }, s)

/-! ### Resume parser tool (`src/tools/resume_parser.py`) -/

/-- The shape of a `parse_resume` reply (the JSON string it serializes:
a success dict, a cached dict with a `status` discriminator merged over the
cached data, or an error dict). -/
inductive ParseResult where
  | cached (message : String) (data : PyDict)
  | success (data : PyDict)
  | error (msg : String)
deriving DecidableEq, Repr

/-- `parse_resume`: return the cache when data is already parsed and the
supplied path is falsy or equal to the cached path; otherwise resolve a
path (argument, else session, else error) and run the real parse.  The
body of the `try` block up to the `ResumeData` construction (file lookup,
text extraction, contact/section/skill parsing) reads the filesystem, so
it is abstracted as `doParse`; every exception or early error return in it
is the `Except.error` case.  A successful parse stores the dumped dict in
the session via `set_resume` before returning. -/
def parse_resume (doParse : String → Except String ResumeData) (now : Nat)
    (file_path : Option String) (s : SessionState) : ParseResult × SessionState :=
  if s.is_resume_parsed && (optFalsy file_path || file_path == s.uploaded_resume_path) then
    (ParseResult.cached "Resume already parsed in this session" (s.resume_parsed_data.getD []), s)
  else
    let resolved :=
      if optFalsy file_path then
        (if s.has_resume then s.uploaded_resume_path else none)
      else file_path
    match resolved with
    | none => (ParseResult.error "No resume file found. Please upload a resume file first.", s)
    | some p =>
      match doParse p with
      | Except.error e => (ParseResult.error e, s)
      | Except.ok rd =>
        let parsed_dict := rd.model_dump
        (ParseResult.success parsed_dict, s.set_resume now p (some parsed_dict))

/-! ### Skill comparison (`src/tools/resume_comparator.py`) -/

/-- Result record of `calculate_skill_match` (the Python function returns
the three sets as lists in arbitrary set-iteration order; they are
modelled as the finite sets themselves). -/
structure SkillMatch where
  matching_skills : Finset String
  missing_skills : Finset String
  partial_matches : Finset String
  match_score : ℚ
  total_required : Nat
  total_matched : Nat
deriving DecidableEq

/-- `{skill.lower().strip() for skill in skills if skill}`. -/
def normSkillSet (skills : List String) : Finset String :=
  ((skills.filter (fun sk => sk ≠ "")).map (fun sk => pyStrip (pyLower sk))).toFinset

/-- `calculate_skill_match`: exact intersection, substring-based partial
matches excluding exact ones, `missing = (jobs − resume) − partial`, and a
weighted percentage rounded to two decimals. -/
def calculate_skill_match (resume_skills job_requirements : List String) : SkillMatch :=
  let rs := normSkillSet resume_skills
  let jr := normSkillSet job_requirements
  let matching := rs ∩ jr
  let missing0 := jr \ rs
  let part := jr.filter
    (fun j => (∃ r ∈ rs, pyInStr j r = true ∨ pyInStr r j = true) ∧ j ∉ matching)
  let missing := missing0 \ part
  let total_required := jr.card
  let match_score : ℚ :=
    if 0 < total_required then
      ((matching.card : ℚ) + (part.card : ℚ) * (1/2)) / (total_required : ℚ) * 100
    else 0
  { matching_skills := matching, missing_skills := missing, partial_matches := part,
    match_score := round2 match_score, total_required := total_required,
    total_matched := matching.card }

/-! ### Output normalizer (`src/agent/orchestrator.py`) -/

/-- A content block of a structured backend reply: a dict whose `type` is
`"text"` (its `text` key may be absent, read with default `""`), or any
other block (a dict of another type, or a non-dict element). -/
inductive ContentBlock where
  | textBlock (content : Option String)
  | otherBlock (tag : String)
deriving DecidableEq, Repr

/-- A raw backend answer: a plain string or a list of content blocks. -/
inductive RawOutput where
  | ofString (s : String)
  | ofList (blocks : List ContentBlock)
deriving DecidableEq, Repr

/-- Python `sep.join(parts)`. -/
def pyJoin (sep : String) : List String → String
  | [] => ""
  | [x] => x
  | x :: y :: t => x ++ sep ++ pyJoin sep (y :: t)

/-- A stand-in for Python `repr` of a block inside `str(output)`. -/
def reprBlock : ContentBlock → String
  | ContentBlock.textBlock c => "dict type=text text=" ++ c.getD ""
  | ContentBlock.otherBlock tag => "dict type=" ++ tag

/-- Python `str(output)`: the string itself, or the bracketed list
rendering (always non-empty for a list). -/
def pyStrRaw : RawOutput → String
  | RawOutput.ofString s => s
  | RawOutput.ofList bs => "[" ++ pyJoin ", " (bs.map reprBlock) ++ "]"

/-- The `text_parts` accumulation loop: text contents of the text-typed
blocks, in order. -/
def textParts (blocks : List ContentBlock) : List String :=
  blocks.filterMap (fun b =>
    match b with
    | ContentBlock.textBlock c => some (c.getD "")
    | ContentBlock.otherBlock _ => none)

/-- `_parse_claude_output`: for a list, the newline-join of the text parts
when any exist, else `str(output)`; for a non-list, `str(output)`. -/
def parseClaudeOutput : RawOutput → String
  | RawOutput.ofList blocks =>
    let parts := textParts blocks
    if parts ≠ [] then pyJoin "\n" parts else pyStrRaw (RawOutput.ofList blocks)
  | RawOutput.ofString s => s

/-- Non-emptiness of a raw backend answer. -/
def RawOutput.nonEmpty : RawOutput → Prop
  | RawOutput.ofString s => s ≠ ""
  | RawOutput.ofList blocks => blocks ≠ []

/-! ### Helper lemmas -/

theorem insertByDesc_mem {α : Type} (key : α → Nat) (a x : α) (l : List α) :
    x ∈ insertByDesc key a l ↔ x = a ∨ x ∈ l := by
  induction l with
  | nil => simp [insertByDesc]
  | cons b t ih =>
    by_cases h : key b ≤ key a
    · simp [insertByDesc, h]
    · simp [insertByDesc, h, ih]
      tauto

theorem insertByDesc_pairwise {α : Type} (key : α → Nat) (a : α) (l : List α)
    (h : l.Pairwise (fun x y => key y ≤ key x)) :
    (insertByDesc key a l).Pairwise (fun x y => key y ≤ key x) := by
  induction l with
  | nil => simp [insertByDesc]
  | cons b t ih =>
    rcases List.pairwise_cons.mp h with ⟨hb, ht⟩
    by_cases hba : key b ≤ key a
    · rw [insertByDesc, if_pos hba]
      refine List.pairwise_cons.mpr ⟨?_, h⟩
      intro y hy
      rcases List.mem_cons.mp hy with rfl | hyt
      · exact hba
      · exact le_trans (hb y hyt) hba
    · rw [insertByDesc, if_neg hba]
      refine List.pairwise_cons.mpr ⟨?_, ih ht⟩
      intro y hy
      rcases (insertByDesc_mem key a y t).mp hy with rfl | hyt
      · exact (not_le.mp hba).le
      · exact hb y hyt

theorem sortByDesc_pairwise {α : Type} (key : α → Nat) (l : List α) :
    (sortByDesc key l).Pairwise (fun x y => key y ≤ key x) := by
  induction l with
  | nil => simp [sortByDesc]
  | cons b t ih => exact insertByDesc_pairwise key b _ ih

theorem sortByDesc_mem {α : Type} (key : α → Nat) (x : α) (l : List α) :
    x ∈ sortByDesc key l ↔ x ∈ l := by
  induction l with
  | nil => simp [sortByDesc]
  | cons b t ih => simp [sortByDesc, insertByDesc_mem, ih]

theorem charsLeads_self_append (n t : List Char) : charsLeads n (n ++ t) = true := by
  induction n with
  | nil => simp [charsLeads]
  | cons c cs ih => simp [charsLeads, ih]

theorem charsContains_append (n pre post : List Char) :
    charsContains n (pre ++ (n ++ post)) = true := by
  induction pre with
  | nil =>
    cases n with
    | nil => cases post <;> simp [charsContains, charsLeads]
    | cons c cs =>
      simp only [List.nil_append, List.cons_append, charsContains]
      have : charsLeads (c :: cs) (c :: (cs ++ post)) = true := by
        simpa [charsLeads] using charsLeads_self_append cs post
      simp [this]
  | cons p ps ih => simp [charsContains, ih]

theorem pyInStr_sandwich (pre mid post : String) :
    pyInStr mid (pre ++ mid ++ post) = true := by
  unfold pyInStr
  rw [String.data_append, String.data_append, List.append_assoc]
  exact charsContains_append mid.data pre.data post.data

theorem add_to_summary_proj (s : SessionState) (now : Nat) (fact : String) :
    (s.add_to_summary now fact).uploaded_resume_path = s.uploaded_resume_path ∧
    (s.add_to_summary now fact).resume_parsed_data = s.resume_parsed_data ∧
    (s.add_to_summary now fact).resume_upload_time = s.resume_upload_time ∧
    (s.add_to_summary now fact).current_job_search_results = s.current_job_search_results ∧
    (s.add_to_summary now fact).selected_job_id = s.selected_job_id ∧
    (s.add_to_summary now fact).generated_documents = s.generated_documents := by
  unfold SessionState.add_to_summary
  simp

theorem set_resume_parsed (s : SessionState) (now : Nat) (p : String) (d : PyDict)
    (hd : d ≠ []) :
    (s.set_resume now p (some d)).uploaded_resume_path = some p ∧
    (s.set_resume now p (some d)).resume_parsed_data = some d := by
  unfold SessionState.set_resume SessionState.add_to_summary
  simp [hd]

/-- The score `rank_jobs` assigns, as a function of the number of matched
skills, the number of distinct resume skills, and remoteness (used to state
properties of `rank_jobs`). -/
def scoreOf (matching total : Nat) (remote : Bool) : Nat :=
  let base := if 0 < total then min 100 (matching * 100 / total) else 50
  if remote then min 100 (base + 5) else base

/-- The number of distinct lowercased resume skills occurring as substrings
of a job's `title + " " + description` text. -/
def countSkillMatches (resume_data : PyDict) (job : JobPosting) : Nat :=
  ((resume_data.getSkills.map pyLower).dedup.filter
    (fun sk => pyInStr sk (pyLower (job.title ++ " " ++ job.description)))).length

/-- The match score of one job against a parsed resume. -/
def jobScore (resume_data : PyDict) (job : JobPosting) : Nat :=
  scoreOf (countSkillMatches resume_data job)
    (resume_data.getSkills.map pyLower).dedup.length
    (job.remote_type == RemoteType.remote)

theorem pyJoin_eq_empty (parts : List String) (hne : parts ≠ [])
    (h : pyJoin "\n" parts = "") : parts = [""] := by
  match parts with
  | [] => exact absurd rfl hne
  | [x] => simpa [pyJoin] using h
  | x :: y :: t =>
    exfalso
    have hd := congrArg String.data h
    rw [pyJoin] at hd
    simp [String.data_append] at hd

theorem pyStrRaw_ofList_ne_empty (bs : List ContentBlock) :
    pyStrRaw (RawOutput.ofList bs) ≠ "" := by
  intro h
  have hd := congrArg String.data h
  simp [pyStrRaw, String.data_append] at hd

/-- A concrete job posting used in reachability counterexamples. -/
def jobA : JobPosting :=
  { id := some "j1", title := "Python Developer", company := "Acme",
    location := "NYC", description := "We build python services" }

/-- One `search_jobs_by_criteria` call with a fixed provider outcome, as a
state transformer (used to build reachable sessions). -/
def searchStep (s : SessionState) : SessionState :=
  (search_jobs_by_criteria (Except.ok [jobA]) "python" "" s).2

/-- A reachable session: one search (caching `[jobA]`) followed by a
`get_job_details` call that selects it. -/
def sessionBeforeClear : SessionState :=
  (get_job_details "j1" (searchStep freshSession)).2

/-! ### Claim theorems -/

/-- C10: On a freshly created `SessionState`, the attributes
`current_job_search_results`, `selected_job_id` and `generated_documents`
do not exist (they are created only dynamically by the tools), so
`list_available_jobs`, `get_job_details`, `filter_jobs_by_requirements`
and `list_generated_documents` each hit an internal `AttributeError` that
is caught and returned as `status = "error"`; the informational statuses
`no_jobs`/`no_results`/`no_documents` are unreachable on a fresh session. -/
theorem fresh_session_attr_error :
    freshSession.current_job_search_results = none ∧
    freshSession.selected_job_id = none ∧
    freshSession.generated_documents = none ∧
    (list_available_jobs freshSession).1.status = "error" ∧
    (∀ job_id : String, (get_job_details job_id freshSession).1.status = "error") ∧
    (∀ (m : Nat) (ro hs : Bool),
      (filter_jobs_by_requirements m ro hs freshSession).1.status = "error") ∧
    (list_generated_documents freshSession).1.status = "error" ∧
    (list_available_jobs freshSession).1.status ≠ "no_jobs" ∧
    (∀ (m : Nat) (ro hs : Bool),
      (filter_jobs_by_requirements m ro hs freshSession).1.status ≠ "no_results") ∧
    (list_generated_documents freshSession).1.status ≠ "no_documents" :=
  ⟨rfl, rfl, rfl, rfl, fun _ => rfl, fun _ _ _ => rfl, rfl, by decide,
   fun m ro hs => by
    rw [show (filter_jobs_by_requirements m ro hs freshSession).1.status = "error" from rfl]
    decide,
   by decide⟩

set_option maxRecDepth 20000 in
/-- C3: evidence that `clear()` does not reset the whole session.  After a
reachable sequence (one job search, one job selection), `clear()` resets
every declared field (resume path/data/time, profile, job description,
analysis, match result, event log) but leaves the dynamically created
attributes `current_job_search_results` and `selected_job_id` (and, in
general, `generated_documents`) untouched, contradicting both the claim
and the method's own docstring ("Clear all session data."). -/
theorem clear_leaves_dynamic_attributes :
    (sessionBeforeClear.clear).uploaded_resume_path = none ∧
    (sessionBeforeClear.clear).resume_parsed_data = none ∧
    (sessionBeforeClear.clear).resume_upload_time = none ∧
    (sessionBeforeClear.clear).user_profile = [] ∧
    (sessionBeforeClear.clear).current_job_description = none ∧
    (sessionBeforeClear.clear).current_job_analysis = none ∧
    (sessionBeforeClear.clear).job_match_result = none ∧
    (sessionBeforeClear.clear).conversation_summary = [] ∧
    (sessionBeforeClear.clear).current_job_search_results = some [jobA] ∧
    (sessionBeforeClear.clear).selected_job_id = some "j1" ∧
    (sessionBeforeClear.clear).current_job_search_results ≠ none ∧
    (sessionBeforeClear.clear).selected_job_id ≠ none := by
  refine ⟨rfl, rfl, rfl, rfl, rfl, rfl, rfl, rfl, ?_, ?_, by decide, by decide⟩ <;> decide

set_option maxRecDepth 40000 in
/-- C4 counterexample: 21 consecutive `search_jobs_by_criteria` calls leave
the event log with 21 entries, because that tool appends to
`conversation_summary` directly, bypassing the 20-entry eviction of
`add_to_summary`; so a reachable state exceeds the claimed bound. -/
theorem event_log_exceeds_twenty :
    (searchStep^[21] freshSession).conversation_summary.length = 21 := by decide

/-- C4 amended: mutators that append through `add_to_summary` do keep the
log at ≤ 20 entries, silently evicting the oldest beyond the 20 most
recent; but `search_jobs_by_criteria` appends its event directly and
always grows the log by one, so the ≤ 20 bound does not hold after it. -/
theorem event_log_bound_amended :
    (∀ (s : SessionState) (now : Nat) (fact : String),
        s.conversation_summary.length ≤ 20 →
        (s.add_to_summary now fact).conversation_summary.length ≤ 20) ∧
    (∀ (s : SessionState) (now : Nat) (fact : String),
        (s.add_to_summary now fact).conversation_summary.length =
          min (s.conversation_summary.length + 1) 20) ∧
    (∀ (provider : Except String (List JobPosting)) (query location : String)
        (s : SessionState),
        ((search_jobs_by_criteria provider query location s).2).conversation_summary.length =
          s.conversation_summary.length + 1) := by
  refine ⟨?_, ?_, ?_⟩
  · intro s now fact h
    simp only [SessionState.add_to_summary]
    split <;> simp_all <;> omega
  · intro s now fact
    simp only [SessionState.add_to_summary]
    split <;> simp_all <;> omega
  · intro provider query location s
    unfold search_jobs_by_criteria
    dsimp only
    split <;> split <;> simp

/-- C4 witness for the amended invariant, at a concrete session. -/
theorem event_log_bound_amended_witness :
    (freshSession.add_to_summary 1 "x").conversation_summary.length ≤ 20 :=
  event_log_bound_amended.1 freshSession 1 "x" (by decide)

/-- C2 counterexample: when the job provider fails, the search tool
returns the informational status `no_results`, not an error status, in its
result record. -/
theorem provider_failure_status_not_error :
    JobSearchService.search_jobs (Except.error "network error") = [] ∧
    (search_jobs_by_criteria (Except.error "network error") "python" "remote"
      freshSession).1.status = "no_results" ∧
    (search_jobs_by_criteria (Except.error "network error") "python" "remote"
      freshSession).1.status ≠ "error" := by
  refine ⟨rfl, by decide, by decide⟩

/-- C2 amended: any provider failure propagates no exception and degrades
to an empty result list (the error is only logged); the tool's result
record then carries the informational status `no_results` (with count 0),
not `status = "error"`, and the session's job list is replaced by the
empty list. -/
theorem provider_failure_degrades :
    ∀ (e query location : String) (s : SessionState),
      JobSearchService.search_jobs (Except.error e) = [] ∧
      (search_jobs_by_criteria (Except.error e) query location s).1.status = "no_results" ∧
      (search_jobs_by_criteria (Except.error e) query location s).1.count = 0 ∧
      (search_jobs_by_criteria (Except.error e) query location s).1.jobs = [] ∧
      ((search_jobs_by_criteria (Except.error e) query location s).2).current_job_search_results
        = some [] := by
  intro e query location s
  unfold search_jobs_by_criteria JobSearchService.search_jobs
  simp

/-- C9 counterexample: a non-empty raw answer — a list whose only block is
a text segment with empty content — normalizes to the empty string. -/
theorem normalizer_empty_on_nonempty_raw :
    parseClaudeOutput (RawOutput.ofList [ContentBlock.textBlock (some "")]) = "" ∧
    RawOutput.nonEmpty (RawOutput.ofList [ContentBlock.textBlock (some "")]) :=
  ⟨rfl, by simp [RawOutput.nonEmpty]⟩

/-- C9 amended: the normalizer returns the newline-join of the text
segments (in order, other segment types ignored) when any text segment
exists, falls back to a stringified representation of the whole raw answer
when none does, and is the identity on plain strings; it can return the
empty string for a non-empty raw answer only in the single case of a list
whose text segments are exactly one segment with empty content. -/
theorem parse_claude_output_spec :
    (∀ blocks : List ContentBlock, textParts blocks ≠ [] →
        parseClaudeOutput (RawOutput.ofList blocks) = pyJoin "\n" (textParts blocks)) ∧
    (∀ blocks : List ContentBlock, textParts blocks = [] →
        parseClaudeOutput (RawOutput.ofList blocks) = pyStrRaw (RawOutput.ofList blocks)) ∧
    (∀ s : String, parseClaudeOutput (RawOutput.ofString s) = s) ∧
    (∀ o : RawOutput, o.nonEmpty → parseClaudeOutput o = "" →
        ∃ blocks, o = RawOutput.ofList blocks ∧ textParts blocks = [""]) := by
  refine ⟨?_, ?_, fun _ => rfl, ?_⟩
  · intro blocks h
    simp [parseClaudeOutput, h]
  · intro blocks h
    simp [parseClaudeOutput, h]
  · intro o hne hempty
    cases o with
    | ofString s => exact absurd hempty hne
    | ofList blocks =>
      refine ⟨blocks, rfl, ?_⟩
      by_cases hp : textParts blocks = []
      · exfalso
        rw [parseClaudeOutput, if_neg (by simp [hp])] at hempty
        exact pyStrRaw_ofList_ne_empty blocks hempty
      · rw [parseClaudeOutput, if_pos (by simpa using hp)] at hempty
        exact pyJoin_eq_empty _ hp hempty

/-- C9 witness for the amended statement at a concrete block list. -/
theorem parse_claude_output_spec_witness :
    parseClaudeOutput (RawOutput.ofList
      [ContentBlock.textBlock (some "hi"), ContentBlock.otherBlock "tool_use",
       ContentBlock.textBlock (some "there")]) = "hi\nthere" := by
  rw [parse_claude_output_spec.1 _ (by decide)]
  decide

theorem scoreOf_le_100 (m t : Nat) (r : Bool) : scoreOf m t r ≤ 100 := by
  unfold scoreOf
  by_cases hr : r <;> by_cases ht : 0 < t <;>
    simp [hr, ht, Nat.min_le_left]

theorem scoreOf_mono (m₁ m₂ t : Nat) (r : Bool) (h : m₁ ≤ m₂) :
    scoreOf m₁ t r ≤ scoreOf m₂ t r := by
  unfold scoreOf
  have hbase : (if 0 < t then min 100 (m₁ * 100 / t) else 50)
      ≤ (if 0 < t then min 100 (m₂ * 100 / t) else 50) := by
    split
    · exact min_le_min le_rfl (Nat.div_le_div_right (Nat.mul_le_mul_right _ h))
    · exact le_rfl
  by_cases hr : r
  · simpa [hr] using min_le_min (le_refl 100) (Nat.add_le_add_right hbase 5)
  · simpa [hr] using hbase

theorem rank_jobs_elem (jobs : List JobPosting) (d : PyDict) :
    ∀ j ∈ JobSearchService.rank_jobs jobs d,
      ∃ j₀ ∈ jobs, j = { j₀ with match_score := some (jobScore d j₀) } := by
  intro j hj
  unfold JobSearchService.rank_jobs at hj
  rw [sortByDesc_mem] at hj
  rcases List.mem_map.mp hj with ⟨j₀, hj₀, rfl⟩
  refine ⟨j₀, hj₀, ?_⟩
  unfold jobScore countSkillMatches scoreOf
  by_cases hr : j₀.remote_type = RemoteType.remote <;> simp [hr]

/-- C6: every job ranked by `rank_jobs` carries `match_score = some n` with
`n = scoreOf matches total remote ≤ 100` (a natural number, hence in
[0,100]); the score is monotonically non-decreasing in the number of
resume skills found as substrings of the job text; remote postings get a
fixed +5 bonus capped at 100; and the returned list is sorted descending
by the `match_score or 0` key. -/
theorem rank_jobs_spec :
    ∀ (jobs : List JobPosting) (resume_data : PyDict),
      (∀ j ∈ JobSearchService.rank_jobs jobs resume_data,
          j.match_score = some (jobScore resume_data j)) ∧
      (∀ j ∈ JobSearchService.rank_jobs jobs resume_data,
          ∃ n, j.match_score = some n ∧ n ≤ 100) ∧
      (∀ (m₁ m₂ t : Nat) (r : Bool), m₁ ≤ m₂ → scoreOf m₁ t r ≤ scoreOf m₂ t r) ∧
      (∀ (m t : Nat), scoreOf m t true = min 100 (scoreOf m t false + 5)) ∧
      (JobSearchService.rank_jobs jobs resume_data).Pairwise
        (fun a b => scoreKey b ≤ scoreKey a) := by
  intro jobs resume_data
  refine ⟨?_, ?_, fun m₁ m₂ t r h => scoreOf_mono m₁ m₂ t r h, ?_, ?_⟩
  · intro j hj
    rcases rank_jobs_elem jobs resume_data j hj with ⟨j₀, _, rfl⟩
    have : jobScore resume_data { j₀ with match_score := some (jobScore resume_data j₀) }
        = jobScore resume_data j₀ := by
      unfold jobScore countSkillMatches
      rfl
    simp [this]
  · intro j hj
    rcases rank_jobs_elem jobs resume_data j hj with ⟨j₀, _, rfl⟩
    exact ⟨jobScore resume_data j₀, rfl, scoreOf_le_100 _ _ _⟩
  · intro m t
    unfold scoreOf
    simp
  · unfold JobSearchService.rank_jobs
    exact sortByDesc_pairwise scoreKey _

/-- C6 witness: the monotonicity conjunct applied at concrete counts. -/
theorem rank_jobs_spec_witness : scoreOf 1 3 false ≤ scoreOf 2 3 false :=
  (rank_jobs_spec [] []).2.2.1 1 2 3 false (by decide)

theorem dedup_insert_count (jid : String) (jnew : JobPosting)
    (hnew : jnew.id = some jid) (l : List JobPosting) :
    ((jnew :: l.filter (fun j => ! (j.id == some jid))).filter
      (fun j => j.id == some jid)).length = 1 := by
  rw [List.filter_cons]
  simp only [hnew, beq_self_eq_true, if_pos]
  rw [List.filter_filter]
  have : ∀ x ∈ l, ((x.id == some jid) && ! (x.id == some jid)) = false := by
    intro x _
    cases h : (x.id == some jid) <;> simp [h]
  rw [List.filter_congr this]
  simp

theorem dedup_insert_other (jid other : String) (hne : other ≠ jid)
    (jnew : JobPosting) (hnew : jnew.id = some jid) (l : List JobPosting) :
    (jnew :: l.filter (fun j => ! (j.id == some jid))).filter
        (fun j => j.id == some other)
      = l.filter (fun j => j.id == some other) := by
  rw [List.filter_cons]
  have hh : (jnew.id == some other) = false := by
    simp [hnew, hne.symm]
  simp only [hh, Bool.false_eq_true, if_neg, ite_false]
  rw [List.filter_filter]
  apply List.filter_congr
  intro x _
  by_cases hxo : x.id = some other
  · simp only [hxo]
    simp
    exact hne
  · simp [hxo]

theorem dedup_insert_nodup (jid : String) (jnew : JobPosting)
    (hnew : jnew.id = some jid) (l : List JobPosting)
    (h : (l.map JobPosting.id).Nodup) :
    ((jnew :: l.filter (fun j => ! (j.id == some jid))).map JobPosting.id).Nodup := by
  rw [List.map_cons, List.nodup_cons]
  refine ⟨?_, h.sublist (List.Sublist.map _ (List.filter_sublist l))⟩
  intro hmem
  rcases List.mem_map.mp hmem with ⟨x, hx, hid⟩
  have hxf := List.of_mem_filter hx
  rw [hnew] at hid
  simp [hid] at hxf

/-- C7: a manual job submission derives its id purely from the description
text (`deriveJobId md5hex desc`, the truncated content hash), succeeds, and
replaces rather than duplicates: the new session list is the new posting at
the front of the old list purged of that id, so it holds exactly one entry
with the submitted id, leaves the entries of every other id untouched, and
preserves id-uniqueness of the list; two submissions with identical
description text therefore derive the identical id. -/
theorem save_manual_job_dedup (md5hex : String → String) (now : Nat)
    (desc jt comp : String) (s : SessionState) (l : List JobPosting)
    (h : s.current_job_search_results = some l) :
    (save_manual_job_description md5hex now desc jt comp s).1.status = "success" ∧
    ∃ jnew : JobPosting,
      (save_manual_job_description md5hex now desc jt comp s).2.current_job_search_results
        = some (jnew :: l.filter (fun j => ! (j.id == some (deriveJobId md5hex desc)))) ∧
      jnew.id = some (deriveJobId md5hex desc) ∧
      ((jnew :: l.filter (fun j => ! (j.id == some (deriveJobId md5hex desc)))).filter
        (fun j => j.id == some (deriveJobId md5hex desc))).length = 1 ∧
      (∀ other : String, other ≠ deriveJobId md5hex desc →
        (jnew :: l.filter (fun j => ! (j.id == some (deriveJobId md5hex desc)))).filter
            (fun j => j.id == some other)
          = l.filter (fun j => j.id == some other)) ∧
      ((l.map JobPosting.id).Nodup →
        ((jnew :: l.filter (fun j => ! (j.id == some (deriveJobId md5hex desc)))).map
          JobPosting.id).Nodup) := by
  cases s with
  | mk p1 rpd p3 p4 p5 p6 p7 p8 cjsr p10 p11 =>
    dsimp only at h
    subst h
    unfold save_manual_job_description
    dsimp only
    cases hb : optTruthy rpd <;>
      exact ⟨rfl, _, rfl, rfl, dedup_insert_count _ _ rfl _,
        fun o ho => dedup_insert_other _ o ho _ rfl _, dedup_insert_nodup _ _ rfl _⟩

/-- A concrete stand-in for the md5 hexdigest used in witnesses. -/
def md5W : String → String := fun s => s ++ "0123456789abcdef"

/-- C7 witness: a concrete submission into a session holding one searched
job succeeds. -/
theorem save_manual_job_dedup_witness :
    (save_manual_job_description md5W 5 "We need a remote Python developer" "" ""
      (searchStep freshSession)).1.status = "success" :=
  (save_manual_job_dedup md5W 5 "We need a remote Python developer" "" ""
    (searchStep freshSession) [jobA] rfl).1

/-- C8: for both document generators, a missing parsed resume yields
`status = "error"` with the session unchanged and no filesystem write; and
with a parsed resume and a cached job list containing no job with the
supplied id, the result is `status = "error"` with a message mentioning
that job id (as a substring), the session — in particular the
generated-documents registry — unchanged, and no filesystem write. -/
theorem docgen_preconditions (llm : Except String String) (saved_path : String) (now : Nat)
    (job_id file_format tone : String) (s : SessionState) :
    (s.is_resume_parsed = false →
      generate_optimized_resume llm saved_path now job_id file_format s
        = ({ status := "error",
             message := "No resume found. Please upload and parse a resume first." }, s, []) ∧
      generate_cover_letter llm saved_path now job_id tone s
        = ({ status := "error",
             message := "No resume found. Please upload and parse a resume first." }, s, [])) ∧
    (∀ l : List JobPosting, s.is_resume_parsed = true →
      s.current_job_search_results = some l →
      (∀ j ∈ l, j.id ≠ some job_id) →
      generate_optimized_resume llm saved_path now job_id file_format s
        = ({ status := "error",
             message := "Job ID " ++ job_id ++ " not found in current search results" }, s, []) ∧
      generate_cover_letter llm saved_path now job_id tone s
        = ({ status := "error",
             message := "Job ID " ++ job_id ++ " not found in current search results" }, s, []) ∧
      pyInStr job_id ("Job ID " ++ job_id ++ " not found in current search results") = true) := by
  constructor
  · intro hnp
    constructor
    · unfold generate_optimized_resume
      simp [hnp]
    · unfold generate_cover_letter
      simp [hnp]
  · intro l hp hres hnone
    have hfind : JobSearchService.get_job_by_id job_id l = none := by
      unfold JobSearchService.get_job_by_id
      apply List.find?_eq_none.mpr
      intro x hx
      simp [hnone x hx]
    refine ⟨?_, ?_, pyInStr_sandwich "Job ID " job_id " not found in current search results"⟩
    · unfold generate_optimized_resume
      rw [hres]
      simp [hp, hfind]
    · unfold generate_cover_letter
      rw [hres]
      simp [hp, hfind]

/-- C8 witness: generating a resume on a fresh session (no parsed resume)
returns the error result with no write. -/
theorem docgen_preconditions_witness :
    generate_optimized_resume (Except.ok "sum") "/tmp/out.pdf" 3 "zzz" "pdf" freshSession
      = ({ status := "error",
           message := "No resume found. Please upload and parse a resume first." },
         freshSession, []) :=
  ((docgen_preconditions (Except.ok "sum") "/tmp/out.pdf" 3 "zzz" "pdf" "professional"
    freshSession).1 rfl).1

/-- C1: if a first `parse_resume` call on path `P` performs a real, successful
parse (returning the parsed dump `d` and the updated session `s₁`), then the
parsed data is stored in the session, and a second call in the same session —
with the same path or with no path — performs no re-parse: it returns
`status = cached` together with exactly the stored data `d` and leaves the
session unchanged. -/
theorem parse_resume_cached_idempotent
    (doParse : String → Except String ResumeData) (now₁ now₂ now₃ : Nat)
    (P : String) (hP : P ≠ "") (s₀ s₁ : SessionState) (d : PyDict)
    (hfirst : parse_resume doParse now₁ (some P) s₀ = (ParseResult.success d, s₁)) :
    s₁.resume_parsed_data = some d ∧
    parse_resume doParse now₂ (some P) s₁
      = (ParseResult.cached "Resume already parsed in this session" d, s₁) ∧
    parse_resume doParse now₃ none s₁
      = (ParseResult.cached "Resume already parsed in this session" d, s₁) := by
  have hfal : optFalsy (some P) = false := by
    simp [optFalsy]
    exact hP
  unfold parse_resume at hfirst
  split at hfirst
  · simp at hfirst
  · rw [hfal] at hfirst
    rw [if_neg Bool.false_ne_true] at hfirst
    dsimp only at hfirst
    cases hdp : doParse P with
    | error e => rw [hdp] at hfirst; simp at hfirst
    | ok rd =>
      rw [hdp] at hfirst
      dsimp only at hfirst
      have hd : d = rd.model_dump := by
        have := congrArg Prod.fst hfirst
        simpa using this.symm
      have hs : s₁ = s₀.set_resume now₁ P (some rd.model_dump) := by
        have := congrArg Prod.snd hfirst
        simpa using this.symm
      subst hd
      have hdne : rd.model_dump ≠ [] := by simp [ResumeData.model_dump]
      have hstored := set_resume_parsed s₀ now₁ P rd.model_dump hdne
      have hpath : s₁.uploaded_resume_path = some P := hs ▸ hstored.1
      have hparsed : s₁.resume_parsed_data = some rd.model_dump := hs ▸ hstored.2
      have hcond₂ : (s₁.is_resume_parsed
          && (optFalsy (some P) || (some P == s₁.uploaded_resume_path))) = true := by
        simp [SessionState.is_resume_parsed, hparsed, hpath]
      have hcond₃ : (s₁.is_resume_parsed
          && (optFalsy (none : Option String) || ((none : Option String) == s₁.uploaded_resume_path))) = true := by
        simp [SessionState.is_resume_parsed, hparsed, optFalsy]
      refine ⟨hparsed, ?_, ?_⟩
      · unfold parse_resume
        rw [hcond₂]
        simp [hparsed]
      · unfold parse_resume
        rw [hcond₃]
        simp [hparsed]

/-- Concrete abstract-parse outcome used in the C1 witness. -/
def dpW : String → Except String ResumeData := fun p =>
  Except.ok { contact := { name := "Jane Doe" }, summary := "Engineer",
              skills := ["python", "sql"], raw_text := "Jane Doe", file_path := p }

/-- The session after the first concrete parse in the C1 witness. -/
def s1W : SessionState := (parse_resume dpW 1 (some "/tmp/resume.txt") freshSession).2

/-- The dict the first concrete parse stores in the C1 witness. -/
def dW : PyDict :=
  ResumeData.model_dump
    { contact := { name := "Jane Doe" }, summary := "Engineer",
      skills := ["python", "sql"], raw_text := "Jane Doe", file_path := "/tmp/resume.txt" }

/-- C1 witness: after a concrete successful parse, the repeat call with the
same path returns the cache. -/
theorem parse_resume_cached_idempotent_witness :
    parse_resume dpW 2 (some "/tmp/resume.txt") s1W
      = (ParseResult.cached "Resume already parsed in this session" dW, s1W) :=
  (parse_resume_cached_idempotent dpW 1 2 3 "/tmp/resume.txt" (by decide)
    freshSession s1W dW (by decide)).2.1

/-- The returned `match_score` as a function of the returned counts
(definitional reading of the score field of `calculate_skill_match`). -/
theorem calculate_skill_match_score_eq (rs jr : List String) :
    (calculate_skill_match rs jr).match_score
      = round2 (if 0 < (calculate_skill_match rs jr).total_required then
          (((calculate_skill_match rs jr).total_matched : ℚ)
            + ((calculate_skill_match rs jr).partial_matches.card : ℚ) * (1/2))
            / ((calculate_skill_match rs jr).total_required : ℚ) * 100
        else 0) := rfl

/-- C5 counterexample: with one exact match out of three requirements the
code returns the two-decimal rounding `33.33 = 3333/100`, not the raw
formula value `100/3`, so the claimed equality
`match_score = (exact + 0.5*partial) / total_required * 100` fails as
stated. -/
theorem skill_match_round_counterexample :
    (calculate_skill_match ["aa"] ["aa", "bb", "cc"]).match_score = 3333/100 ∧
    (((calculate_skill_match ["aa"] ["aa", "bb", "cc"]).total_matched : ℚ)
        + ((calculate_skill_match ["aa"] ["aa", "bb", "cc"]).partial_matches.card : ℚ) * (1/2))
        / ((calculate_skill_match ["aa"] ["aa", "bb", "cc"]).total_required : ℚ) * 100
      = 100/3 ∧
    (3333/100 : ℚ) ≠ 100/3 := by
  have h1 : (calculate_skill_match ["aa"] ["aa", "bb", "cc"]).total_matched = 1 := by decide
  have h2 : (calculate_skill_match ["aa"] ["aa", "bb", "cc"]).partial_matches.card = 0 := by
    decide
  have h3 : (calculate_skill_match ["aa"] ["aa", "bb", "cc"]).total_required = 3 := by decide
  refine ⟨?_, ?_, by norm_num⟩
  · rw [calculate_skill_match_score_eq, h1, h2, h3]
    norm_num [round2]
  · rw [h1, h2, h3]
    norm_num

/-- C5 amended: `calculate_skill_match` returns the exact matches as the
case-insensitive (lowercased, stripped) set intersection, the partial
matches as the job requirements standing in a substring relation with some
resume skill excluding exact matches, `missing = requirements − exact −
partial`, and `match_score = (exact + 0.5*partial) / total_required * 100`
**rounded to two decimal places** (0 when `total_required = 0`); on the
spec scenario (skills Python/SQL/AWS against requirements
Python/Docker/SQL/Kubernetes) it yields matching `{python, sql}`, missing
`{docker, kubernetes}`, no partial matches, and score 50. -/
theorem calculate_skill_match_spec :
    (∀ (resume_skills job_requirements : List String),
      (calculate_skill_match resume_skills job_requirements).matching_skills
        = normSkillSet resume_skills ∩ normSkillSet job_requirements ∧
      (calculate_skill_match resume_skills job_requirements).partial_matches
        = (normSkillSet job_requirements).filter (fun j =>
            (∃ r ∈ normSkillSet resume_skills, pyInStr j r = true ∨ pyInStr r j = true) ∧
            j ∉ normSkillSet resume_skills ∩ normSkillSet job_requirements) ∧
      (calculate_skill_match resume_skills job_requirements).missing_skills
        = ((normSkillSet job_requirements)
            \ (calculate_skill_match resume_skills job_requirements).matching_skills)
            \ (calculate_skill_match resume_skills job_requirements).partial_matches ∧
      (calculate_skill_match resume_skills job_requirements).total_required
        = (normSkillSet job_requirements).card ∧
      (calculate_skill_match resume_skills job_requirements).match_score
        = round2 (if 0 < (normSkillSet job_requirements).card then
            (((calculate_skill_match resume_skills job_requirements).matching_skills.card : ℚ)
              + ((calculate_skill_match resume_skills
                    job_requirements).partial_matches.card : ℚ) * (1/2))
              / ((normSkillSet job_requirements).card : ℚ) * 100
          else 0)) ∧
    (calculate_skill_match ["Python", "SQL", "AWS"]
        ["Python", "Docker", "SQL", "Kubernetes"]).matching_skills
      = ({"python", "sql"} : Finset String) ∧
    (calculate_skill_match ["Python", "SQL", "AWS"]
        ["Python", "Docker", "SQL", "Kubernetes"]).missing_skills
      = ({"docker", "kubernetes"} : Finset String) ∧
    (calculate_skill_match ["Python", "SQL", "AWS"]
        ["Python", "Docker", "SQL", "Kubernetes"]).partial_matches = (∅ : Finset String) ∧
    (calculate_skill_match ["Python", "SQL", "AWS"]
        ["Python", "Docker", "SQL", "Kubernetes"]).match_score = 50 := by
  refine ⟨?_, by decide, by decide, by decide, ?_⟩
  · intro resume_skills job_requirements
    refine ⟨rfl, rfl, ?_, rfl, rfl⟩
    unfold calculate_skill_match
    dsimp only
    ext a
    simp only [Finset.mem_sdiff, Finset.mem_inter]
    tauto
  · have h1 : (calculate_skill_match ["Python", "SQL", "AWS"]
        ["Python", "Docker", "SQL", "Kubernetes"]).total_matched = 2 := by decide
    have h2 : (calculate_skill_match ["Python", "SQL", "AWS"]
        ["Python", "Docker", "SQL", "Kubernetes"]).partial_matches.card = 0 := by decide
    have h3 : (calculate_skill_match ["Python", "SQL", "AWS"]
        ["Python", "Docker", "SQL", "Kubernetes"]).total_required = 4 := by decide
    rw [calculate_skill_match_score_eq, h1, h2, h3]
    norm_num [round2]
